import Mathlib

/-!
Verification development for the 3D bone-segmentation workstation
(isosurface extraction, density-mapped rendering, and cross-view ROI
synchronization).  Python floats are modelled as exact rationals; NumPy
arrays of scalars are modelled as lists or index functions over `ℚ`.
-/

set_option maxHeartbeats 1000000

/-- The three anatomical 2D projections of the volume. -/
inductive ViewOrientation where
  | axial
  | coronal
  | sagittal
deriving DecidableEq, Repr

/-- A QRectF: a rectangle in the fixed 400x400 display coordinate space. -/
structure RectF where
  x : ℚ
  y : ℚ
  w : ℚ
  h : ℚ
deriving DecidableEq, Repr

/-- `image.GetSize()`: volume dimensions `(width, height, depth)` = (x, y, z). -/
structure Size3 where
  x : ℕ
  y : ℕ
  z : ℕ
deriving DecidableEq, Repr

/-- The 3D ROI dictionary built by `convert_roi_to_3d_preserving_dimensions`:
six integer bounds plus the tag of the projection that last modified it. -/
structure Roi3D where
  x_min : ℤ
  x_max : ℤ
  y_min : ℤ
  y_max : ℤ
  z_min : ℤ
  z_max : ℤ
  source_orientation : ViewOrientation
deriving DecidableEq, Repr

/-- Python `int()` applied to a float: truncation toward zero. -/
def pyInt (q : ℚ) : ℤ := if 0 ≤ q then ⌊q⌋ else ⌈q⌉

/-- `MainWindowFunctions.convert_roi_to_3d_preserving_dimensions`
(src/src/bone_segmentation/ui/main_window_functions.py, lines 361-465).
`prior` is `self.roi_rect_3d`; `axial_index`, `coronal_index`,
`sagittal_index` are the three scrollbar values; the display is the fixed
400x400 viewer.  Scales are `size/400`, corners pass through Python `int()`
and are clamped with `max(0, .)` / `min(size, .)`; when no prior ROI exists
the hidden axis receives the band
`[max(0, idx - t//2), min(dim, idx + t//2)]` with `t = max(1, dim // 10)`. -/
def convert_roi_to_3d_preserving_dimensions
    (prior : Option Roi3D) (rect : RectF) (orientation : ViewOrientation)
    (size : Size3) (axial_index coronal_index sagittal_index : ℕ) : Roi3D :=
  let x_min0 : ℤ := match prior with | some r => r.x_min | none => 0
  let x_max0 : ℤ := match prior with | some r => r.x_max | none => (size.x : ℤ)
  let y_min0 : ℤ := match prior with | some r => r.y_min | none => 0
  let y_max0 : ℤ := match prior with | some r => r.y_max | none => (size.y : ℤ)
  let z_min0 : ℤ := match prior with | some r => r.z_min | none => 0
  let z_max0 : ℤ := match prior with | some r => r.z_max | none => (size.z : ℤ)
  match orientation with
  | .axial =>
      let scale_x : ℚ := (size.x : ℚ) / 400
      let scale_y : ℚ := (size.y : ℚ) / 400
      let x_min : ℤ := max 0 (pyInt (rect.x * scale_x))
      let x_max : ℤ := min (size.x : ℤ) (pyInt ((rect.x + rect.w) * scale_x))
      let y_min : ℤ := max 0 (pyInt (rect.y * scale_y))
      let y_max : ℤ := min (size.y : ℤ) (pyInt ((rect.y + rect.h) * scale_y))
      let zb : ℤ × ℤ :=
        match prior with
        | some _ => (z_min0, z_max0)
        | none =>
            let z_center : ℤ := (axial_index : ℤ)
            let z_thickness : ℕ := max 1 (size.z / 10)
            (max 0 (z_center - ((z_thickness / 2 : ℕ) : ℤ)),
             min (size.z : ℤ) (z_center + ((z_thickness / 2 : ℕ) : ℤ)))
      ⟨x_min, x_max, y_min, y_max, zb.1, zb.2, .axial⟩
  | .coronal =>
      let scale_x : ℚ := (size.x : ℚ) / 400
      let scale_z : ℚ := (size.z : ℚ) / 400
      let x_min : ℤ := max 0 (pyInt (rect.x * scale_x))
      let x_max : ℤ := min (size.x : ℤ) (pyInt ((rect.x + rect.w) * scale_x))
      let z_min : ℤ := max 0 (pyInt (rect.y * scale_z))
      let z_max : ℤ := min (size.z : ℤ) (pyInt ((rect.y + rect.h) * scale_z))
      let yb : ℤ × ℤ :=
        match prior with
        | some _ => (y_min0, y_max0)
        | none =>
            let y_center : ℤ := (coronal_index : ℤ)
            let y_thickness : ℕ := max 1 (size.y / 10)
            (max 0 (y_center - ((y_thickness / 2 : ℕ) : ℤ)),
             min (size.y : ℤ) (y_center + ((y_thickness / 2 : ℕ) : ℤ)))
      ⟨x_min, x_max, yb.1, yb.2, z_min, z_max, .coronal⟩
  | .sagittal =>
      let scale_y : ℚ := (size.y : ℚ) / 400
      let scale_z : ℚ := (size.z : ℚ) / 400
      let y_min : ℤ := max 0 (pyInt (rect.x * scale_y))
      let y_max : ℤ := min (size.y : ℤ) (pyInt ((rect.x + rect.w) * scale_y))
      let z_min : ℤ := max 0 (pyInt (rect.y * scale_z))
      let z_max : ℤ := min (size.z : ℤ) (pyInt ((rect.y + rect.h) * scale_z))
      let xb : ℤ × ℤ :=
        match prior with
        | some _ => (x_min0, x_max0)
        | none =>
            let x_center : ℤ := (sagittal_index : ℤ)
            let x_thickness : ℕ := max 1 (size.x / 10)
            (max 0 (x_center - ((x_thickness / 2 : ℕ) : ℤ)),
             min (size.x : ℤ) (x_center + ((x_thickness / 2 : ℕ) : ℤ)))
      ⟨xb.1, xb.2, y_min, y_max, z_min, z_max, .sagittal⟩

/-- The QRectF computed by `MainWindowFunctions.propagate_roi_to_single_view`
(main_window_functions.py, lines 540-590) for a target view: the inverse
scale `400/size` applied to the two axis-pairs visible in that view.  The
same formula is used by `propagate_roi_to_views` and
`propagate_roi_immediate`. -/
def project_roi_rect (roi : Roi3D) (target : ViewOrientation) (size : Size3) : RectF :=
  match target with
  | .axial =>
      let scale_x : ℚ := 400 / (size.x : ℚ)
      let scale_y : ℚ := 400 / (size.y : ℚ)
      ⟨(roi.x_min : ℚ) * scale_x, (roi.y_min : ℚ) * scale_y,
       ((roi.x_max - roi.x_min : ℤ) : ℚ) * scale_x,
       ((roi.y_max - roi.y_min : ℤ) : ℚ) * scale_y⟩
  | .coronal =>
      let scale_x : ℚ := 400 / (size.x : ℚ)
      let scale_z : ℚ := 400 / (size.z : ℚ)
      ⟨(roi.x_min : ℚ) * scale_x, (roi.z_min : ℚ) * scale_z,
       ((roi.x_max - roi.x_min : ℤ) : ℚ) * scale_x,
       ((roi.z_max - roi.z_min : ℤ) : ℚ) * scale_z⟩
  | .sagittal =>
      let scale_y : ℚ := 400 / (size.y : ℚ)
      let scale_z : ℚ := 400 / (size.z : ℚ)
      ⟨(roi.y_min : ℚ) * scale_y, (roi.z_min : ℚ) * scale_z,
       ((roi.y_max - roi.y_min : ℤ) : ℚ) * scale_y,
       ((roi.z_max - roi.z_min : ℤ) : ℚ) * scale_z⟩

/-- `propagate_roi_to_single_view` only pushes the projected rectangle to the
view when its width and height both exceed 1 display unit. -/
def propagate_roi_to_single_view (roi : Roi3D) (target : ViewOrientation) (size : Size3) :
    Option RectF :=
  let r := project_roi_rect roi target size
  if 1 < r.w ∧ 1 < r.h then some r else none

/-- The two volume dimensions visible in a given projection
(horizontal display axis first): axial shows (x, y), coronal (x, z),
sagittal (y, z). -/
def viewDims (o : ViewOrientation) (size : Size3) : ℕ × ℕ :=
  match o with
  | .axial => (size.x, size.y)
  | .coronal => (size.x, size.z)
  | .sagittal => (size.y, size.z)

/-- Membership test of `MainWindowFunctions.get_roi_mask`
(main_window_functions.py, lines 602-623): the mask is `True` exactly on the
NumPy slice `mask[z_min:z_max, y_min:y_max, x_min:x_max]` after the bounds
are clamped with `max(0, .)` and `min(shape, .)`.  `shape0, shape1, shape2`
are the array dimensions `(depth, height, width)`; the embedding assumes the
clamped stop bounds are nonnegative (NumPy would wrap a negative stop). -/
def get_roi_mask (roi : Roi3D) (shape0 shape1 shape2 : ℕ) (z y x : ℕ) : Bool :=
  let x_lo : ℤ := max 0 roi.x_min
  let x_hi : ℤ := min (shape2 : ℤ) roi.x_max
  let y_lo : ℤ := max 0 roi.y_min
  let y_hi : ℤ := min (shape1 : ℤ) roi.y_max
  let z_lo : ℤ := max 0 roi.z_min
  let z_hi : ℤ := min (shape0 : ℤ) roi.z_max
  decide (z_lo ≤ (z : ℤ) ∧ (z : ℤ) < z_hi) &&
  decide (y_lo ≤ (y : ℤ) ∧ (y : ℤ) < y_hi) &&
  decide (x_lo ≤ (x : ℤ) ∧ (x : ℤ) < x_hi)

/-- `MainWindowFunctions.roi_intersects_axial_slice`
(main_window_functions.py, lines 704-710): inclusive on both bounds. -/
def roi_intersects_axial_slice (roi : Option Roi3D) (slice_index : ℤ) : Bool :=
  match roi with
  | none => false
  | some r => decide (r.z_min ≤ slice_index ∧ slice_index ≤ r.z_max)

/-- `MainWindowFunctions.roi_intersects_coronal_slice` (lines 688-694). -/
def roi_intersects_coronal_slice (roi : Option Roi3D) (slice_index : ℤ) : Bool :=
  match roi with
  | none => false
  | some r => decide (r.y_min ≤ slice_index ∧ slice_index ≤ r.y_max)

/-- `MainWindowFunctions.roi_intersects_sagittal_slice` (lines 696-702). -/
def roi_intersects_sagittal_slice (roi : Option Roi3D) (slice_index : ℤ) : Bool :=
  match roi with
  | none => false
  | some r => decide (r.x_min ≤ slice_index ∧ slice_index ≤ r.x_max)

/-- Environment read by the ROI handlers: the volume size and the three
current scrollbar values. -/
structure SyncEnv where
  size : Size3
  axial_index : ℕ
  coronal_index : ℕ
  sagittal_index : ℕ
deriving Repr

/-- The mutable controller state: the reentrancy flag
`roi_update_in_progress` and the current 3D ROI `roi_rect_3d`. -/
structure SyncState where
  roi_update_in_progress : Bool
  roi_rect_3d : Option Roi3D
deriving DecidableEq, Repr

/-- Observable side effects of a ROI handler on the other views. -/
inductive RoiEffect where
  | clear_roi_external (target : ViewOrientation)
  | scroll (target : ViewOrientation) (index : ℤ)
  | set_roi_external (target : ViewOrientation) (rect : RectF)
deriving DecidableEq, Repr

/-- `MainWindowFunctions.navigate_views_to_show_roi`
(main_window_functions.py, lines 214-241): scroll each view to the ROI
center on its depth axis (Python `//` floor division), but only when the
center differs from the current index. -/
def navigate_views_to_show_roi (roi : Roi3D) (env : SyncEnv) : List RoiEffect :=
  let x_center : ℤ := (roi.x_min + roi.x_max).fdiv 2
  let y_center : ℤ := (roi.y_min + roi.y_max).fdiv 2
  let z_center : ℤ := (roi.z_min + roi.z_max).fdiv 2
  (if z_center ≠ (env.axial_index : ℤ) then [RoiEffect.scroll .axial z_center] else []) ++
  (if y_center ≠ (env.coronal_index : ℤ) then [RoiEffect.scroll .coronal y_center] else []) ++
  (if x_center ≠ (env.sagittal_index : ℤ) then [RoiEffect.scroll .sagittal x_center] else [])

/-- `MainWindowFunctions.propagate_roi_to_views`
(main_window_functions.py, lines 471-538): push the projected rectangle to
every view other than the source, gated on width and height exceeding 1.
`propagate_roi_immediate` (lines 136-212) computes the same rectangles with
the same gate. -/
def propagate_roi_to_views (roi : Roi3D) (source : ViewOrientation) (size : Size3) :
    List RoiEffect :=
  (if source ≠ .axial then
     match propagate_roi_to_single_view roi .axial size with
     | some r => [RoiEffect.set_roi_external .axial r]
     | none => []
   else []) ++
  (if source ≠ .coronal then
     match propagate_roi_to_single_view roi .coronal size with
     | some r => [RoiEffect.set_roi_external .coronal r]
     | none => []
   else []) ++
  (if source ≠ .sagittal then
     match propagate_roi_to_single_view roi .sagittal size with
     | some r => [RoiEffect.set_roi_external .sagittal r]
     | none => []
   else [])

/-- `MainWindowFunctions.on_roi_changed`
(main_window_functions.py, lines 325-359).  `rect = none` stands for a
`None` or empty rectangle (the clear branch).  `raises` abstracts the
exception path of the surrounding `try`: the `except` clause resets
`roi_update_in_progress` to `False` before returning.  If the flag is
already set the event is dropped: the state is returned unchanged and no
effect is emitted. -/
def on_roi_changed (st : SyncState) (rect : Option RectF) (source : ViewOrientation)
    (env : SyncEnv) (raises : Bool) : SyncState × List RoiEffect :=
  if st.roi_update_in_progress then (st, [])
  else if raises then ({ st with roi_update_in_progress := false }, [])
  else
    match rect with
    | none =>
        (⟨false, none⟩,
         ([ViewOrientation.coronal, .sagittal, .axial].filter (· ≠ source)).map
           RoiEffect.clear_roi_external)
    | some r =>
        let roi := convert_roi_to_3d_preserving_dimensions st.roi_rect_3d r source
          env.size env.axial_index env.coronal_index env.sagittal_index
        (⟨false, some roi⟩,
         navigate_views_to_show_roi roi env ++ propagate_roi_to_views roi source env.size)

/-- `MainWindowFunctions.on_roi_changed_immediate`
(main_window_functions.py, lines 113-134): same guard and flag discipline as
`on_roi_changed`, without the clear branch. -/
def on_roi_changed_immediate (st : SyncState) (rect : RectF) (source : ViewOrientation)
    (env : SyncEnv) (raises : Bool) : SyncState × List RoiEffect :=
  if st.roi_update_in_progress then (st, [])
  else if raises then ({ st with roi_update_in_progress := false }, [])
  else
    let roi := convert_roi_to_3d_preserving_dimensions st.roi_rect_3d rect source
      env.size env.axial_index env.coronal_index env.sagittal_index
    (⟨false, some roi⟩,
     navigate_views_to_show_roi roi env ++ propagate_roi_to_views roi source env.size)

/-- Minimum of a nonempty list of scalars (`ndarray.min()`); 0 on `[]`. -/
def listMin : List ℚ → ℚ
  | [] => 0
  | [a] => a
  | a :: b :: l => min a (listMin (b :: l))

/-- Maximum of a nonempty list of scalars (`ndarray.max()`); 0 on `[]`. -/
def listMax : List ℚ → ℚ
  | [] => 0
  | [a] => a
  | a :: b :: l => max a (listMax (b :: l))

/-- Insert into a sorted list (helper for sorting a sample list). -/
def insertSorted (a : ℚ) : List ℚ → List ℚ
  | [] => [a]
  | b :: l => if a ≤ b then a :: b :: l else b :: insertSorted a l

/-- Sort a list of scalars ascending (insertion sort). -/
def sortQ (l : List ℚ) : List ℚ := l.foldr insertSorted []

/-- `np.median`: middle element of the sorted data, or the mean of the two
middle elements for even length. -/
def npMedian (l : List ℚ) : ℚ :=
  let s := sortQ l
  let n := s.length
  if n = 0 then 0
  else if n % 2 = 1 then s.getD (n / 2) 0
  else (s.getD (n / 2 - 1) 0 + s.getD (n / 2) 0) / 2

/-- `np.percentile` with the default linear interpolation between order
statistics. -/
def npPercentile (l : List ℚ) (q : ℚ) : ℚ :=
  let s := sortQ l
  let n := s.length
  if n = 0 then 0
  else
    let pos : ℚ := q / 100 * ((n : ℚ) - 1)
    let lo : ℤ := ⌊pos⌋
    let frac : ℚ := pos - (lo : ℚ)
    let a := s.getD lo.toNat 0
    let b := s.getD (lo.toNat + 1) 0
    a + frac * (b - a)

/-- `np.clip(v, lo, hi) = minimum(maximum(v, lo), hi)`. -/
def npClip (v lo hi : ℚ) : ℚ := min hi (max lo v)

/-- The tissue-aware band filter of
`Visualization.sample_density_at_vertices_for_surface`
(src/mayavi_widget.py, lines 417-488), applied to the per-vertex values
`raw` that the scipy trilinear resampling produced (the resampling itself is
an external library call and is taken as input here).
`original_present` is `self.original_data is not None`.  The fractional
thresholds `len * 0.3` and `len * 0.5` are rendered exactly as
`3 * len < 10 * count` and `len < 2 * count`.  `none` is the implicit Python
`None` returned when a band is detected but its qualifying fraction is too
small (the code falls out of the `if/elif` chain with no `return`). -/
def sample_density_at_vertices_for_surface
    (original_present : Bool) (iso_level : ℚ) (raw : List ℚ) : Option (List ℚ) :=
  if original_present ∧ 100 < iso_level then
    let bone_count := raw.countP (fun v => decide (150 < v))
    if 3 * raw.length < 10 * bone_count then
      let min_bone := listMin (raw.filter (fun v => decide (150 < v)))
      some (raw.map (fun v => if 150 < v then v else min_bone))
    else none
  else if original_present ∧ 0 < iso_level ∧ iso_level ≤ 100 then
    let soft_count := raw.countP (fun v => decide (-100 ≤ v ∧ v ≤ 300))
    if raw.length < 2 * soft_count then
      some (raw.map (fun v => npClip v (-100) 300))
    else none
  else if original_present ∧ iso_level ≤ 0 then
    some (raw.map (fun v => npClip v (-1000) 100))
  else
    let q10 := npPercentile raw 10
    let q90 := npPercentile raw 90
    let b : ℚ × ℚ :=
      if q90 - q10 < 50 then ((q10 + q90) / 2 - 25, (q10 + q90) / 2 + 25)
      else (q10, q90)
    some (raw.map (fun v => npClip v b.1 b.2))

/-- Outcome of `Visualization.update_scene` (src/mayavi_widget.py,
lines 225-369).  `empty_data` is the `data.size == 0` early return;
`degenerate_range` is the `data_max <= data_min` early return taken BEFORE
any marching-cubes call (the spec names this failure
`DegenerateRangeError`); only `surface_built` reaches
`measure.marching_cubes`, carrying the iso-level passed to it. -/
inductive UpdateSceneResult where
  | empty_data
  | degenerate_range
  | surface_built (iso_level : ℚ)
deriving DecidableEq, Repr

/-- `Visualization.update_scene` up to the marching-cubes call: the data
checks and the iso-level heuristic (zero-fraction test `> 50%` rendered
exactly; `data_min + 0.001` rendered as `data_min + 1/1000`). -/
def update_scene (data : List ℚ) : UpdateSceneResult :=
  if data.length = 0 then .empty_data
  else
    let data_min := listMin data
    let data_max := listMax data
    if data_max ≤ data_min then .degenerate_range
    else
      let non_zero := data.countP (fun v => decide (v ≠ 0))
      let iso_raw : ℚ :=
        if data.length < 2 * (data.length - non_zero) then
          data_min + (data_max - data_min) / 100
        else npMedian (data.filter (fun v => decide (data_min < v)))
      .surface_built (max (data_min + 1 / 1000) (min iso_raw (data_max - 1 / 1000)))

/-- Outcome of `MainWindowFunctions.build_3d_view` on the raw-data path
(main_window_functions.py, lines 760-960): `error_dialog` is the
`ValueError` raised at lines 840-841 and caught by the surrounding
`except`, which shows a critical message box instead of crashing;
otherwise the (downsampled) data reaches the visualization and
`update_scene`. -/
inductive Build3dOutcome where
  | error_dialog (msg : String)
  | built (result : UpdateSceneResult)
deriving DecidableEq, Repr

/-- The no-processing path of `build_3d_view` after downsampling: the
raw-data variation check followed by the scene update. -/
def build_3d_view_raw (data : List ℚ) : Build3dOutcome :=
  if listMax data ≤ listMin data then
    .error_dialog "No variation in raw data - cannot create 3D visualization"
  else .built (update_scene data)

/-- A 3D scalar field `self.data`: dimensions `(dim0, dim1, dim2)` =
`(z, y, x)` and the voxel values. -/
structure Field3 where
  dim0 : ℕ
  dim1 : ℕ
  dim2 : ℕ
  val : ℕ → ℕ → ℕ → ℚ

/-- Clamp an index into `[0, dim - 1]`
(`max(0, min(i, shape - 1))` in the source). -/
def clampIndex (i : ℤ) (dim : ℕ) : ℤ := max 0 (min i ((dim : ℤ) - 1))

/-- Per-axis interpolation weight of
`DensityColoredVisualization.interpolate_density_at_vertices`
(src/enhanced_mayavi_widget.py, lines 136-149): `(c - lo)/(hi - lo)` when
`hi != lo`, and 0 when the two integer bounds coincide (so no division by
zero can occur). -/
def interpWeight (c : ℚ) (lo hi : ℤ) : ℚ :=
  if hi = lo then 0 else (c - (lo : ℚ)) / ((hi : ℚ) - (lo : ℚ))

/-- Voxel lookup with integer indices (nonnegative after clamping). -/
def fieldGet (f : Field3) (i j k : ℤ) : ℚ := f.val i.toNat j.toNat k.toNat

/-- The per-vertex body of
`DensityColoredVisualization.interpolate_density_at_vertices`
(src/enhanced_mayavi_widget.py, lines 108-174): clip the fractional
coordinate to `[0, dim - 1]` on each axis (`np.clip`), take floor/ceil
integer bounds re-clamped into range, compute the three axis weights, and
blend the 8 surrounding voxels trilinearly. -/
def interpolate_density_at_vertex (f : Field3) (vz vy vx : ℚ) : ℚ :=
  let z := npClip vz 0 ((f.dim0 : ℚ) - 1)
  let y := npClip vy 0 ((f.dim1 : ℚ) - 1)
  let x := npClip vx 0 ((f.dim2 : ℚ) - 1)
  let z0 := clampIndex ⌊z⌋ f.dim0
  let z1 := clampIndex ⌈z⌉ f.dim0
  let y0 := clampIndex ⌊y⌋ f.dim1
  let y1 := clampIndex ⌈y⌉ f.dim1
  let x0 := clampIndex ⌊x⌋ f.dim2
  let x1 := clampIndex ⌈x⌉ f.dim2
  let wz := interpWeight z z0 z1
  let wy := interpWeight y y0 y1
  let wx := interpWeight x x0 x1
  let c000 := fieldGet f z0 y0 x0
  let c001 := fieldGet f z0 y0 x1
  let c010 := fieldGet f z0 y1 x0
  let c011 := fieldGet f z0 y1 x1
  let c100 := fieldGet f z1 y0 x0
  let c101 := fieldGet f z1 y0 x1
  let c110 := fieldGet f z1 y1 x0
  let c111 := fieldGet f z1 y1 x1
  let c00 := c000 * (1 - wx) + c001 * wx
  let c01 := c010 * (1 - wx) + c011 * wx
  let c10 := c100 * (1 - wx) + c101 * wx
  let c11 := c110 * (1 - wx) + c111 * wx
  let c0 := c00 * (1 - wy) + c01 * wy
  let c1 := c10 * (1 - wy) + c11 * wy
  c0 * (1 - wz) + c1 * wz

/-- The iso-level selection of
`DensityColoredVisualization.create_density_colored_surface`
(src/enhanced_mayavi_widget.py, lines 54-80), also reached through
`update_iso_level` (lines 299-305).  `mean_plus_half_std` stands for the
value `data_mean + 0.5 * data_std` computed from the field (its square root
is irrational in general, so it is taken as an input here).  The clamp
`max(data_min + 0.1*range, min(level, data_max - 0.1*range))` sits inside
the `if iso_level is None:` block of the source: an explicitly supplied
`iso_level` is returned unchanged. -/
def create_density_colored_surface_iso
    (data_min data_max mean_plus_half_std : ℚ) (iso_level : Option ℚ) : ℚ :=
  match iso_level with
  | some l => l
  | none =>
      let base : ℚ := if 1000 < data_max then 200 else mean_plus_half_std
      max (data_min + (data_max - data_min) / 10)
        (min base (data_max - (data_max - data_min) / 10))

/-- The axis-pair hidden in (preserved by) a given projection:
Z for axial, Y for coronal, X for sagittal. -/
def hidden_axis_bounds (roi : Roi3D) (o : ViewOrientation) : ℤ × ℤ :=
  match o with
  | .axial => (roi.z_min, roi.z_max)
  | .coronal => (roi.y_min, roi.y_max)
  | .sagittal => (roi.x_min, roi.x_max)

/-- The two axis-pairs visible in a given projection
(horizontal display axis first). -/
def visible_bounds (roi : Roi3D) (o : ViewOrientation) : (ℤ × ℤ) × (ℤ × ℤ) :=
  match o with
  | .axial => ((roi.x_min, roi.x_max), (roi.y_min, roi.y_max))
  | .coronal => ((roi.x_min, roi.x_max), (roi.z_min, roi.z_max))
  | .sagittal => ((roi.y_min, roi.y_max), (roi.z_min, roi.z_max))

/-- Volume dimension along the axis hidden in a given projection. -/
def hidden_dim (o : ViewOrientation) (size : Size3) : ℕ :=
  match o with
  | .axial => size.z
  | .coronal => size.y
  | .sagittal => size.x

/-- Current slice index of the view that hides the given axis. -/
def hidden_index (o : ViewOrientation) (ai ci si : ℕ) : ℕ :=
  match o with
  | .axial => ai
  | .coronal => ci
  | .sagittal => si

/-- One visible axis-pair of the updated ROI: the rectangle corner scaled by
`dim / 400`, truncated by Python `int()`, and clamped into `[0, dim]`. -/
def scaled_pair (lo len : ℚ) (d : ℕ) : ℤ × ℤ :=
  (max 0 (pyInt (lo * ((d : ℚ) / 400))),
   min (d : ℤ) (pyInt ((lo + len) * ((d : ℚ) / 400))))

/-- The hidden-axis band of a first ROI draw: half-width
`(max 1 (d / 10)) / 2` around the current slice index, clamped to the
volume. -/
def centered_band (idx d : ℕ) : ℤ × ℤ :=
  let half : ℕ := max 1 (d / 10) / 2
  (max 0 ((idx : ℤ) - (half : ℤ)), min (d : ℤ) ((idx : ℤ) + (half : ℤ)))

/-- Expected result of a ROI update with no prior ROI, written from the
amended specification: the two visible axis-pairs come from the scaled,
truncated, clamped rectangle corners, and the hidden axis is the centered
band around that axis's current slice index. -/
def first_draw_roi_spec (rect : RectF) (o : ViewOrientation) (size : Size3)
    (ai ci si : ℕ) : Roi3D :=
  let pu := scaled_pair rect.x rect.w (viewDims o size).1
  let pv := scaled_pair rect.y rect.h (viewDims o size).2
  let pb := centered_band (hidden_index o ai ci si) (hidden_dim o size)
  match o with
  | .axial => ⟨pu.1, pu.2, pv.1, pv.2, pb.1, pb.2, .axial⟩
  | .coronal => ⟨pu.1, pu.2, pb.1, pb.2, pv.1, pv.2, .coronal⟩
  | .sagittal => ⟨pb.1, pb.2, pu.1, pu.2, pv.1, pv.2, .sagittal⟩

lemma convert_none_eq (rect : RectF) (o : ViewOrientation) (size : Size3)
    (ai ci si : ℕ) :
    convert_roi_to_3d_preserving_dimensions none rect o size ai ci si =
      first_draw_roi_spec rect o size ai ci si := by
  cases o <;>
    simp [convert_roi_to_3d_preserving_dimensions, first_draw_roi_spec,
      scaled_pair, centered_band, viewDims, hidden_index, hidden_dim]

lemma pyInt_of_nonneg {q : ℚ} (h : 0 ≤ q) : pyInt q = ⌊q⌋ := if_pos h

/-- C1: for every nonempty scalar field whose maximum is at most its
minimum, `update_scene` returns the degenerate-range failure (the spec's
`DegenerateRangeError`) before any marching-cubes computation, and the
`build_3d_view` caller on the raw-data path turns the condition into a
caught error shown as a dialog — a no-surface fallback, not a crash. -/
theorem update_scene_degenerate_range (data : List ℚ)
    (hne : data ≠ []) (hdeg : listMax data ≤ listMin data) :
    update_scene data = UpdateSceneResult.degenerate_range ∧
    build_3d_view_raw data =
      Build3dOutcome.error_dialog
        "No variation in raw data - cannot create 3D visualization" := by
  have hlen : ¬ data.length = 0 := by simpa using hne
  constructor
  · simp only [update_scene, if_neg hlen, if_pos hdeg]
  · simp only [build_3d_view_raw, if_pos hdeg]

theorem update_scene_degenerate_range_witness :
    ([5, 5] : List ℚ) ≠ [] ∧
    update_scene [5, 5] = UpdateSceneResult.degenerate_range := by
  have h := update_scene_degenerate_range [5, 5] (by decide) (by decide)
  exact ⟨by decide, h.1⟩

/-- C6 counterexample: with a field of range `[0, 2000]` the middle-80%
band is `[200, 1800]`, yet an explicitly supplied iso-level of 5000 is used
unchanged for extraction — the clamp is applied only on the default
(`iso_level is None`) path, so the claim that a user-supplied iso-level is
clamped is false. -/
theorem user_iso_level_not_clamped :
    create_density_colored_surface_iso 0 2000 500 (some 5000) = 5000 ∧
    ¬ (create_density_colored_surface_iso 0 2000 500 (some 5000) ≤
        2000 - (2000 - 0) / 10) := by
  exact ⟨rfl, by norm_num [create_density_colored_surface_iso]⟩

/-- C6 amended: an explicitly user-supplied iso-level is used unchanged by
surface extraction; only the default heuristic iso-level (chosen when none
is supplied) is clamped to the middle 80% of the field's value range
`[min + 0.1*range, max - 0.1*range]`. -/
theorem iso_level_selection (data_min data_max mean_plus_half_std u : ℚ) :
    create_density_colored_surface_iso data_min data_max mean_plus_half_std (some u) = u ∧
    (data_min ≤ data_max →
      data_min + (data_max - data_min) / 10 ≤
        create_density_colored_surface_iso data_min data_max mean_plus_half_std none ∧
      create_density_colored_surface_iso data_min data_max mean_plus_half_std none ≤
        data_max - (data_max - data_min) / 10) := by
  refine ⟨rfl, fun hle => ?_⟩
  simp only [create_density_colored_surface_iso]
  refine ⟨le_max_left _ _, max_le (by linarith) (le_trans (min_le_right _ _) le_rfl)⟩

theorem iso_level_selection_witness :
    create_density_colored_surface_iso 0 2000 500 (some 4321) = 4321 ∧
    (0 : ℚ) + (2000 - 0) / 10 ≤ create_density_colored_surface_iso 0 2000 500 none ∧
    create_density_colored_surface_iso 0 2000 500 none ≤ 2000 - (2000 - 0) / 10 := by
  have h := iso_level_selection 0 2000 500 4321
  exact ⟨h.1, h.2 (by norm_num)⟩

/-- C3: when a prior 3D ROI exists, an update from any orientation leaves
the hidden axis-pair (Z for axial, Y for coronal, X for sagittal) exactly
equal to its value in the prior ROI — never reset to the full volume — and
the two visible axis-pairs are overwritten from the rectangle alone: they
do not depend on the prior ROI at all. -/
theorem roi_update_preserves_hidden_axis (p p' : Roi3D) (rect : RectF)
    (o : ViewOrientation) (size : Size3) (ai ci si : ℕ) :
    hidden_axis_bounds
        (convert_roi_to_3d_preserving_dimensions (some p) rect o size ai ci si) o =
      hidden_axis_bounds p o ∧
    visible_bounds
        (convert_roi_to_3d_preserving_dimensions (some p) rect o size ai ci si) o =
      visible_bounds
        (convert_roi_to_3d_preserving_dimensions (some p') rect o size ai ci si) o ∧
    (convert_roi_to_3d_preserving_dimensions (some p) rect o size ai ci si).source_orientation
      = o := by
  cases o <;>
    simp [convert_roi_to_3d_preserving_dimensions, hidden_axis_bounds, visible_bounds]

/-- C9: an edit event arriving while `roi_update_in_progress` is set is
dropped — the state (including the 3D ROI) is unchanged and no navigation
or propagation effect is emitted — and an event handled from the idle state
leaves the controller idle again on every path, including the exception
path, for both `on_roi_changed` and `on_roi_changed_immediate`. -/
theorem roi_sync_reentrancy_guard (st : SyncState) (rect : Option RectF) (r0 : RectF)
    (source : ViewOrientation) (env : SyncEnv) (raises : Bool) :
    (st.roi_update_in_progress = true →
      on_roi_changed st rect source env raises = (st, []) ∧
      on_roi_changed_immediate st r0 source env raises = (st, [])) ∧
    (st.roi_update_in_progress = false →
      (on_roi_changed st rect source env raises).1.roi_update_in_progress = false ∧
      (on_roi_changed_immediate st r0 source env raises).1.roi_update_in_progress = false) := by
  constructor
  · intro h
    simp [on_roi_changed, on_roi_changed_immediate, h]
  · intro h
    cases raises <;> cases rect <;>
      simp [on_roi_changed, on_roi_changed_immediate, h]

theorem roi_sync_reentrancy_guard_witness :
    on_roi_changed ⟨true, none⟩ none .axial ⟨⟨4, 4, 4⟩, 0, 0, 0⟩ false =
      (⟨true, none⟩, []) ∧
    (on_roi_changed ⟨false, none⟩ none .axial ⟨⟨4, 4, 4⟩, 0, 0, 0⟩ true).1.roi_update_in_progress
      = false := by
  refine ⟨((roi_sync_reentrancy_guard ⟨true, none⟩ none ⟨0, 0, 1, 1⟩ .axial
      ⟨⟨4, 4, 4⟩, 0, 0, 0⟩ false).1 rfl).1, ?_⟩
  exact ((roi_sync_reentrancy_guard ⟨false, none⟩ none ⟨0, 0, 1, 1⟩ .axial
      ⟨⟨4, 4, 4⟩, 0, 0, 0⟩ true).2 rfl).1

/-- C10: over the in-range voxel indices the ROI mask is true exactly on
the half-open box `[min, max)` on each axis (the voxel at the max bound is
excluded), while the three per-view slice-intersection predicates treat the
max bound inclusively: a slice index equal to the max bound is reported as
intersecting even though no voxel of that slice is in the mask. -/
theorem roi_mask_half_open_intersect_inclusive (roi : Roi3D) (shape0 shape1 shape2 : ℕ)
    (hx : 0 ≤ roi.x_max) (hy : 0 ≤ roi.y_max) (hz : 0 ≤ roi.z_max)
    (hxi : roi.x_min ≤ roi.x_max) (hyi : roi.y_min ≤ roi.y_max)
    (hzi : roi.z_min ≤ roi.z_max) :
    (∀ z y x : ℕ, z < shape0 → y < shape1 → x < shape2 →
      (get_roi_mask roi shape0 shape1 shape2 z y x = true ↔
        (roi.z_min ≤ (z : ℤ) ∧ (z : ℤ) < roi.z_max ∧
         roi.y_min ≤ (y : ℤ) ∧ (y : ℤ) < roi.y_max ∧
         roi.x_min ≤ (x : ℤ) ∧ (x : ℤ) < roi.x_max))) ∧
    roi_intersects_axial_slice (some roi) roi.z_max = true ∧
    roi_intersects_coronal_slice (some roi) roi.y_max = true ∧
    roi_intersects_sagittal_slice (some roi) roi.x_max = true ∧
    (∀ z y x : ℕ, roi.z_max ≤ (z : ℤ) →
      get_roi_mask roi shape0 shape1 shape2 z y x = false) := by
  refine ⟨?_, ?_, ?_, ?_, ?_⟩
  · intro z y x hzs hys hxs
    simp only [get_roi_mask, Bool.and_eq_true, decide_eq_true_eq, max_le_iff, lt_min_iff]
    constructor
    · intro h
      omega
    · intro h
      omega
  · simp only [roi_intersects_axial_slice, decide_eq_true_eq]
    exact ⟨hzi, le_rfl⟩
  · simp only [roi_intersects_coronal_slice, decide_eq_true_eq]
    exact ⟨hyi, le_rfl⟩
  · simp only [roi_intersects_sagittal_slice, decide_eq_true_eq]
    exact ⟨hxi, le_rfl⟩
  · intro z y x hzz
    rw [← Bool.not_eq_true]
    simp only [get_roi_mask, Bool.and_eq_true, decide_eq_true_eq, max_le_iff, lt_min_iff]
    intro h
    omega

theorem roi_mask_half_open_intersect_inclusive_witness :
    roi_intersects_axial_slice (some ⟨0, 5, 0, 5, 0, 5, .axial⟩) 5 = true ∧
    get_roi_mask ⟨0, 5, 0, 5, 0, 5, .axial⟩ 10 10 10 5 2 2 = false := by
  have h := roi_mask_half_open_intersect_inclusive ⟨0, 5, 0, 5, 0, 5, .axial⟩ 10 10 10
    (by decide) (by decide) (by decide) (by decide) (by decide) (by decide)
  exact ⟨h.2.1, h.2.2.2.2 5 2 2 (by decide)⟩

/-- C2 counterexample: in a 512x512x30 volume the claim's band thickness is
`max(1, 30 / 10) = 3`, but the code builds the band
`[idx - 3 // 2, idx + 3 // 2]`, of thickness 2: for an axial rectangle
(50, 50, 100, 100) at axial slice 15 the Z-bounds are (14, 16). -/
theorem roi_first_draw_band_counterexample :
    (convert_roi_to_3d_preserving_dimensions none ⟨50, 50, 100, 100⟩ .axial
        ⟨512, 512, 30⟩ 15 0 0).z_max -
      (convert_roi_to_3d_preserving_dimensions none ⟨50, 50, 100, 100⟩ .axial
        ⟨512, 512, 30⟩ 15 0 0).z_min = 2 ∧
    (2 : ℤ) ≠ max 1 ((30 : ℤ) / 10) := by
  constructor
  · rw [convert_none_eq]
    decide
  · decide

lemma centered_band_width (idx d : ℕ) :
    (centered_band idx d).2 - (centered_band idx d).1 ≤ ((max 1 (d / 10) : ℕ) : ℤ) := by
  simp only [centered_band]
  have h1 : min ((d : ℤ)) ((idx : ℤ) + ((max 1 (d / 10) / 2 : ℕ) : ℤ)) ≤
      (idx : ℤ) + ((max 1 (d / 10) / 2 : ℕ) : ℤ) := min_le_right _ _
  have h2 : (idx : ℤ) - ((max 1 (d / 10) / 2 : ℕ) : ℤ) ≤
      max 0 ((idx : ℤ) - ((max 1 (d / 10) / 2 : ℕ) : ℤ)) := le_max_right _ _
  have h3 : max 1 (d / 10) / 2 * 2 ≤ max 1 (d / 10) := Nat.div_mul_le_self _ 2
  omega

lemma centered_band_ne_full (idx d : ℕ) (hd : 1 ≤ d) :
    centered_band idx d ≠ (0, (d : ℤ)) := by
  simp only [centered_band]
  intro hfull
  rw [Prod.mk.injEq] at hfull
  obtain ⟨h1, h2⟩ := hfull
  have hlo : (idx : ℤ) - ((max 1 (d / 10) / 2 : ℕ) : ℤ) ≤ 0 := by
    by_contra hc
    push_neg at hc
    rw [max_eq_right (le_of_lt hc)] at h1
    omega
  have hhi : (d : ℤ) ≤ (idx : ℤ) + ((max 1 (d / 10) / 2 : ℕ) : ℤ) := by
    by_contra hc
    push_neg at hc
    rw [min_eq_right (le_of_lt hc)] at h2
    omega
  rcases le_or_lt 1 (d / 10) with h10 | h10
  · rw [Nat.max_eq_right h10] at hlo hhi
    have hdd : d / 10 < d := Nat.div_lt_self (by omega) (by omega)
    have hdd2 : d / 10 / 2 ≤ d / 10 := Nat.div_le_self _ _
    omega
  · have : max 1 (d / 10) = 1 := Nat.max_eq_left (by omega)
    rw [this] at hlo hhi
    omega

/-- C2 amended: a first ROI draw (no prior ROI) sets the two visible
axis-pairs from the rectangle corners scaled by `volume_dim / 400`,
truncated to integers and clamped to the volume extent, and initializes the
hidden third axis to the band `[idx - h, idx + h]` clamped to the volume,
where `idx` is that axis's current slice index and
`h = (max 1 (dim / 10)) / 2` — so the band's thickness is at most
`max 1 (dim / 10)` (one less when that quantity is odd, zero when it is 1)
and the hidden axis is never the full volume extent. -/
theorem roi_first_draw_spec (rect : RectF) (o : ViewOrientation) (size : Size3)
    (ai ci si : ℕ) (hd : 1 ≤ hidden_dim o size) :
    convert_roi_to_3d_preserving_dimensions none rect o size ai ci si =
      first_draw_roi_spec rect o size ai ci si ∧
    (hidden_axis_bounds
        (convert_roi_to_3d_preserving_dimensions none rect o size ai ci si) o).2 -
      (hidden_axis_bounds
        (convert_roi_to_3d_preserving_dimensions none rect o size ai ci si) o).1 ≤
      ((max 1 (hidden_dim o size / 10) : ℕ) : ℤ) ∧
    hidden_axis_bounds
        (convert_roi_to_3d_preserving_dimensions none rect o size ai ci si) o ≠
      (0, (hidden_dim o size : ℤ)) := by
  refine ⟨convert_none_eq rect o size ai ci si, ?_, ?_⟩ <;>
    rw [convert_none_eq] <;>
    cases o <;>
    simp only [first_draw_roi_spec, hidden_axis_bounds, hidden_dim, hidden_index] <;>
    first
      | exact centered_band_width _ _
      | exact centered_band_ne_full _ _ hd

theorem roi_first_draw_spec_witness :
    1 ≤ hidden_dim .axial ⟨512, 512, 30⟩ ∧
    convert_roi_to_3d_preserving_dimensions none ⟨50, 50, 100, 100⟩ .axial
        ⟨512, 512, 30⟩ 15 0 0 =
      first_draw_roi_spec ⟨50, 50, 100, 100⟩ .axial ⟨512, 512, 30⟩ 15 0 0 ∧
    hidden_axis_bounds
        (convert_roi_to_3d_preserving_dimensions none ⟨50, 50, 100, 100⟩ .axial
          ⟨512, 512, 30⟩ 15 0 0) .axial ≠
      (0, (hidden_dim .axial ⟨512, 512, 30⟩ : ℤ)) := by
  have h := roi_first_draw_spec ⟨50, 50, 100, 100⟩ .axial ⟨512, 512, 30⟩ 15 0 0
    (by decide)
  exact ⟨by decide, h.1, h.2.2⟩

lemma listMin_le {l : List ℚ} {a : ℚ} (ha : a ∈ l) : listMin l ≤ a := by
  induction l with
  | nil => cases ha
  | cons b t ih =>
    cases t with
    | nil =>
      rw [List.mem_singleton] at ha
      simp [listMin, ha]
    | cons c t2 =>
      rcases List.mem_cons.mp ha with h | h
      · rw [h, listMin]
        exact min_le_left _ _
      · exact le_trans (min_le_right _ _) (ih h)

lemma listMin_mem {l : List ℚ} (h : l ≠ []) : listMin l ∈ l := by
  induction l with
  | nil => exact absurd rfl h
  | cons b t ih =>
    cases t with
    | nil => simp [listMin]
    | cons c t2 =>
      rw [listMin]
      rcases min_choice b (listMin (c :: t2)) with h1 | h1 <;> rw [h1]
      · exact List.mem_cons_self _ _
      · exact List.mem_cons_of_mem _ (ih (by simp))

/-- C4: for iso-levels above 100 (bone-like) with the original field
available, when strictly more than 30 percent of the resampled per-vertex
values exceed 150 HU, the band filter returns the list where every value
not exceeding 150 is replaced by the minimum of the values exceeding 150,
and consequently the minimum of the returned field equals the minimum of
the qualifying (> 150) samples. -/
theorem map_density_bone_branch (iso_level : ℚ) (raw : List ℚ)
    (hiso : 100 < iso_level)
    (hfrac : 3 * raw.length < 10 * raw.countP (fun v => decide (150 < v))) :
    sample_density_at_vertices_for_surface true iso_level raw =
      some (raw.map (fun v => if 150 < v then v
        else listMin (raw.filter (fun v => decide (150 < v))))) ∧
    listMin (raw.map (fun v => if 150 < v then v
        else listMin (raw.filter (fun v => decide (150 < v))))) =
      listMin (raw.filter (fun v => decide (150 < v))) := by
  have hcount : 0 < raw.countP (fun v => decide (150 < v)) := by
    by_contra hc
    push_neg at hc
    omega
  have hfil : raw.filter (fun v => decide (150 < v)) ≠ [] := by
    intro hnil
    rw [List.countP_eq_length_filter, hnil] at hcount
    exact absurd hcount (by simp)
  have hraw : raw ≠ [] := by
    intro hnil
    rw [hnil] at hfil
    exact hfil rfl
  set m := listMin (raw.filter (fun v => decide (150 < v))) with hm
  constructor
  · simp only [sample_density_at_vertices_for_surface]
    rw [if_pos ⟨trivial, hiso⟩, if_pos hfrac]
  · have hmem : m ∈ raw.map (fun v => if 150 < v then v else m) := by
      have hmf : m ∈ raw.filter (fun v => decide (150 < v)) := listMin_mem hfil
      rw [List.mem_filter] at hmf
      obtain ⟨hmr, hm150⟩ := hmf
      rw [List.mem_map]
      exact ⟨m, hmr, by simp [of_decide_eq_true hm150]⟩
    have hlb : ∀ w ∈ raw.map (fun v => if 150 < v then v else m), m ≤ w := by
      intro w hw
      rw [List.mem_map] at hw
      obtain ⟨v, hv, hvw⟩ := hw
      by_cases h150 : 150 < v
      · rw [if_pos h150] at hvw
        rw [← hvw]
        exact listMin_le (List.mem_filter.mpr ⟨hv, decide_eq_true h150⟩)
      · rw [if_neg h150] at hvw
        rw [← hvw]
    have hmapne : raw.map (fun v => if 150 < v then v else m) ≠ [] := by
      intro hnil
      exact hraw (List.map_eq_nil_iff.mp hnil)
    exact le_antisymm (listMin_le hmem) (hlb _ (listMin_mem hmapne))

theorem map_density_bone_branch_witness :
    (100 : ℚ) < 500 ∧
    sample_density_at_vertices_for_surface true 500 [100, 200, 300, 120, 180] =
      some [180, 200, 300, 180, 180] ∧
    listMin (([100, 200, 300, 120, 180] : List ℚ).map (fun v => if 150 < v then v
        else listMin (([100, 200, 300, 120, 180] : List ℚ).filter
          (fun v => decide (150 < v))))) =
      listMin (([100, 200, 300, 120, 180] : List ℚ).filter (fun v => decide (150 < v))) := by
  have h := map_density_bone_branch 500 [100, 200, 300, 120, 180] (by norm_num) (by decide)
  refine ⟨by norm_num, ?_, h.2⟩
  rw [h.1]
  decide

lemma npClip_lattice {n d : ℕ} (hnd : n < d) :
    npClip (n : ℚ) 0 ((d : ℚ) - 1) = (n : ℚ) := by
  have h1 : (n : ℚ) ≤ (d : ℚ) - 1 := by
    have : ((n : ℚ) + 1) ≤ (d : ℚ) := by exact_mod_cast hnd
    linarith
  rw [npClip, max_eq_right (by positivity), min_eq_right h1]

lemma clampIndex_lattice {n d : ℕ} (hnd : n < d) :
    clampIndex (n : ℤ) d = (n : ℤ) := by
  rw [clampIndex, min_eq_left (by omega), max_eq_right (by omega)]

/-- C5: the per-vertex trilinear sampler clips each fractional coordinate
into `[0, dim - 1]` before interpolating; when the floor and ceiling
integer bounds on an axis coincide, the interpolation weight on that axis
is 0 (no division by zero); and at exact integer lattice coordinates, for
all interior and boundary indices, the sampler returns exactly the stored
voxel value. -/
theorem sample_clamp_weight_lattice (f : Field3) :
    (∀ (v : ℚ) (dim : ℕ), 1 ≤ dim →
      0 ≤ npClip v 0 ((dim : ℚ) - 1) ∧ npClip v 0 ((dim : ℚ) - 1) ≤ (dim : ℚ) - 1) ∧
    (∀ (c : ℚ) (b : ℤ), interpWeight c b b = 0) ∧
    (∀ i j k : ℕ, i < f.dim0 → j < f.dim1 → k < f.dim2 →
      interpolate_density_at_vertex f (i : ℚ) (j : ℚ) (k : ℚ) = f.val i j k) := by
  refine ⟨?_, ?_, ?_⟩
  · intro v dim hdim
    constructor
    · rw [npClip]
      have h0 : (0 : ℚ) ≤ (dim : ℚ) - 1 := by
        have : (1 : ℚ) ≤ (dim : ℚ) := by exact_mod_cast hdim
        linarith
      exact le_min h0 (le_max_left _ _)
    · exact min_le_left _ _
  · intro c b
    simp [interpWeight]
  · intro i j k hi hj hk
    rw [interpolate_density_at_vertex]
    simp only [npClip_lattice hi, npClip_lattice hj, npClip_lattice hk,
      Int.floor_natCast, Int.ceil_natCast,
      clampIndex_lattice hi, clampIndex_lattice hj, clampIndex_lattice hk]
    simp [interpWeight, fieldGet]

/-- Concrete 2x2x2 field used by the sampler witness. -/
def sampleFieldW : Field3 := ⟨2, 2, 2, fun i j k => (i * 4 + j * 2 + k : ℚ)⟩

theorem sample_clamp_weight_lattice_witness :
    (1 : ℕ) ≤ 2 ∧
    interpolate_density_at_vertex sampleFieldW ((1 : ℕ) : ℚ) ((0 : ℕ) : ℚ) ((1 : ℕ) : ℚ) =
      sampleFieldW.val 1 0 1 := by
  have h := sample_clamp_weight_lattice sampleFieldW
  exact ⟨by decide, h.2.2 1 0 1 (by decide) (by decide) (by decide)⟩

/-- C8 counterexample: a rectangle lying outside the 400x400 display
(x = 500 in a 100-wide volume at scale 100/400) yields
`x_min = 125 > 100 = x_max`, so `min <= max` fails; and `x_min = 125` also
lies outside `[0, 100)`.  Moreover even a full in-display rectangle makes a
max bound equal to the dimension, which `[0, dimension)` excludes. -/
theorem roi_invariant_counterexample :
    ¬ ((convert_roi_to_3d_preserving_dimensions none ⟨500, 500, 10, 10⟩ .axial
          ⟨100, 100, 100⟩ 0 0 0).x_min ≤
        (convert_roi_to_3d_preserving_dimensions none ⟨500, 500, 10, 10⟩ .axial
          ⟨100, 100, 100⟩ 0 0 0).x_max) ∧
    ¬ ((convert_roi_to_3d_preserving_dimensions none ⟨500, 500, 10, 10⟩ .axial
          ⟨100, 100, 100⟩ 0 0 0).x_min < 100) := by
  rw [convert_none_eq]
  norm_num [first_draw_roi_spec, scaled_pair, viewDims, pyInt]

/-- The amended ROI invariant: on each axis the min bound is nonnegative,
min is at most max, and the max bound — an exclusive end — is at most the
volume dimension (it may equal it). -/
def RoiInv (roi : Roi3D) (size : Size3) : Prop :=
  0 ≤ roi.x_min ∧ roi.x_min ≤ roi.x_max ∧ roi.x_max ≤ (size.x : ℤ) ∧
  0 ≤ roi.y_min ∧ roi.y_min ≤ roi.y_max ∧ roi.y_max ≤ (size.y : ℤ) ∧
  0 ≤ roi.z_min ∧ roi.z_min ≤ roi.z_max ∧ roi.z_max ≤ (size.z : ℤ)

instance (roi : Roi3D) (size : Size3) : Decidable (RoiInv roi size) := by
  unfold RoiInv
  infer_instance

lemma scaled_pair_inv (lo len : ℚ) (d : ℕ) (hlo : 0 ≤ lo) (hlen : 0 ≤ len)
    (hsum : lo + len ≤ 400) :
    0 ≤ (scaled_pair lo len d).1 ∧ (scaled_pair lo len d).1 ≤ (scaled_pair lo len d).2 ∧
    (scaled_pair lo len d).2 ≤ (d : ℤ) := by
  have hs : (0 : ℚ) ≤ (d : ℚ) / 400 := by positivity
  have h1 : (0 : ℚ) ≤ lo * ((d : ℚ) / 400) := mul_nonneg hlo hs
  have h2 : (0 : ℚ) ≤ (lo + len) * ((d : ℚ) / 400) := mul_nonneg (by linarith) hs
  have hfl1 : (0 : ℤ) ≤ ⌊lo * ((d : ℚ) / 400)⌋ := Int.floor_nonneg.mpr h1
  have hmono : ⌊lo * ((d : ℚ) / 400)⌋ ≤ ⌊(lo + len) * ((d : ℚ) / 400)⌋ :=
    Int.floor_le_floor (by nlinarith)
  have hled : ⌊lo * ((d : ℚ) / 400)⌋ ≤ (d : ℤ) := by
    have h400 : (400 : ℚ) * ((d : ℚ) / 400) = (d : ℚ) := by field_simp
    have hq : lo * ((d : ℚ) / 400) ≤ (d : ℚ) := by nlinarith
    calc ⌊lo * ((d : ℚ) / 400)⌋ ≤ ⌊(d : ℚ)⌋ := Int.floor_le_floor hq
      _ = (d : ℤ) := Int.floor_natCast d
  simp only [scaled_pair, pyInt_of_nonneg h1, pyInt_of_nonneg h2]
  refine ⟨le_max_left _ _, ?_, min_le_left _ _⟩
  rw [max_eq_right hfl1]
  exact le_min hled hmono

lemma centered_band_inv (idx d : ℕ) (hidx : idx < d) :
    0 ≤ (centered_band idx d).1 ∧ (centered_band idx d).1 ≤ (centered_band idx d).2 ∧
    (centered_band idx d).2 ≤ (d : ℤ) := by
  simp only [centered_band]
  refine ⟨le_max_left _ _, ?_, min_le_left _ _⟩
  apply max_le
  · exact le_min (by omega) (by omega)
  · exact le_min (by omega) (by omega)

/-- C8 amended: for a rectangle with nonnegative size lying inside the
400x400 display, slice indices inside the volume, and a prior ROI (when
present) that itself satisfies the invariant, the updated 3D ROI satisfies
`0 <= min`, `min <= max` and `max <= dimension` on every axis (the max
bound is an exclusive end, so `[0, dimension]` rather than the claimed
`[0, dimension)`). -/
theorem roi_update_invariant (prior : Option Roi3D) (rect : RectF) (o : ViewOrientation)
    (size : Size3) (ai ci si : ℕ)
    (hpx : 0 ≤ rect.x) (hpy : 0 ≤ rect.y) (hw : 0 ≤ rect.w) (hh : 0 ≤ rect.h)
    (hxw : rect.x + rect.w ≤ 400) (hyh : rect.y + rect.h ≤ 400)
    (hai : ai < size.z) (hci : ci < size.y) (hsi : si < size.x)
    (hprior : ∀ p, prior = some p → RoiInv p size) :
    RoiInv (convert_roi_to_3d_preserving_dimensions prior rect o size ai ci si) size := by
  cases prior with
  | none =>
      rw [convert_none_eq]
      cases o
      · have hu := scaled_pair_inv rect.x rect.w size.x hpx hw hxw
        have hv := scaled_pair_inv rect.y rect.h size.y hpy hh hyh
        have hb := centered_band_inv ai size.z hai
        simp only [first_draw_roi_spec, RoiInv, viewDims, hidden_index, hidden_dim]
        exact ⟨hu.1, hu.2.1, hu.2.2, hv.1, hv.2.1, hv.2.2, hb.1, hb.2.1, hb.2.2⟩
      · have hu := scaled_pair_inv rect.x rect.w size.x hpx hw hxw
        have hv := scaled_pair_inv rect.y rect.h size.z hpy hh hyh
        have hb := centered_band_inv ci size.y hci
        simp only [first_draw_roi_spec, RoiInv, viewDims, hidden_index, hidden_dim]
        exact ⟨hu.1, hu.2.1, hu.2.2, hb.1, hb.2.1, hb.2.2, hv.1, hv.2.1, hv.2.2⟩
      · have hu := scaled_pair_inv rect.x rect.w size.y hpx hw hxw
        have hv := scaled_pair_inv rect.y rect.h size.z hpy hh hyh
        have hb := centered_band_inv si size.x hsi
        simp only [first_draw_roi_spec, RoiInv, viewDims, hidden_index, hidden_dim]
        exact ⟨hb.1, hb.2.1, hb.2.2, hu.1, hu.2.1, hu.2.2, hv.1, hv.2.1, hv.2.2⟩
  | some p =>
      have hp := hprior p rfl
      rw [RoiInv] at hp
      cases o
      · have hu := scaled_pair_inv rect.x rect.w size.x hpx hw hxw
        have hv := scaled_pair_inv rect.y rect.h size.y hpy hh hyh
        simp only [scaled_pair] at hu hv
        simp only [convert_roi_to_3d_preserving_dimensions, RoiInv]
        exact ⟨hu.1, hu.2.1, hu.2.2, hv.1, hv.2.1, hv.2.2,
          hp.2.2.2.2.2.2.1, hp.2.2.2.2.2.2.2.1, hp.2.2.2.2.2.2.2.2⟩
      · have hu := scaled_pair_inv rect.x rect.w size.x hpx hw hxw
        have hv := scaled_pair_inv rect.y rect.h size.z hpy hh hyh
        simp only [scaled_pair] at hu hv
        simp only [convert_roi_to_3d_preserving_dimensions, RoiInv]
        exact ⟨hu.1, hu.2.1, hu.2.2, hp.2.2.2.1, hp.2.2.2.2.1, hp.2.2.2.2.2.1,
          hv.1, hv.2.1, hv.2.2⟩
      · have hu := scaled_pair_inv rect.x rect.w size.y hpx hw hxw
        have hv := scaled_pair_inv rect.y rect.h size.z hpy hh hyh
        simp only [scaled_pair] at hu hv
        simp only [convert_roi_to_3d_preserving_dimensions, RoiInv]
        exact ⟨hp.1, hp.2.1, hp.2.2.1, hu.1, hu.2.1, hu.2.2, hv.1, hv.2.1, hv.2.2⟩

theorem roi_update_invariant_witness :
    (0 : ℚ) ≤ 50 ∧
    RoiInv (convert_roi_to_3d_preserving_dimensions none ⟨50, 50, 100, 100⟩ .axial
      ⟨512, 512, 300⟩ 10 10 10) ⟨512, 512, 300⟩ := by
  exact ⟨by norm_num,
    roi_update_invariant none ⟨50, 50, 100, 100⟩ .axial ⟨512, 512, 300⟩ 10 10 10
      (by norm_num) (by norm_num) (by norm_num) (by norm_num) (by norm_num) (by norm_num)
      (by norm_num) (by norm_num) (by norm_num) (fun p hp => by cases hp)⟩

lemma rescale_close (c : ℚ) (d : ℕ) (N : ℤ) (hd : 1 ≤ d)
    (hlow : c * ((d : ℚ) / 400) - 1 < (N : ℚ))
    (hhigh : (N : ℚ) < c * ((d : ℚ) / 400) + 1) :
    |(N : ℚ) * (400 / (d : ℚ)) - c| < 400 / (d : ℚ) := by
  have hD : (0 : ℚ) < (d : ℚ) := by exact_mod_cast hd
  have hpos : (0 : ℚ) < 400 / (d : ℚ) := by positivity
  have hrw : (N : ℚ) * (400 / (d : ℚ)) - c =
      ((N : ℚ) - c * ((d : ℚ) / 400)) * (400 / (d : ℚ)) := by
    field_simp
    ring
  rw [hrw, abs_mul, abs_of_pos hpos]
  have hone : |(N : ℚ) - c * ((d : ℚ) / 400)| < 1 := by
    rw [abs_lt]
    constructor <;> linarith
  calc |(N : ℚ) - c * ((d : ℚ) / 400)| * (400 / (d : ℚ))
      < 1 * (400 / (d : ℚ)) := (mul_lt_mul_right hpos).mpr hone
    _ = 400 / (d : ℚ) := one_mul _

lemma axis_round_trip (lo len : ℚ) (d : ℕ) (hd : 1 ≤ d)
    (hlo : 0 ≤ lo) (hlen : 0 ≤ len) (hsum : lo + len ≤ 400) :
    |((scaled_pair lo len d).1 : ℚ) * (400 / (d : ℚ)) - lo| < 400 / (d : ℚ) ∧
    |(((scaled_pair lo len d).2 - (scaled_pair lo len d).1 : ℤ) : ℚ) * (400 / (d : ℚ)) - len| <
      400 / (d : ℚ) := by
  have hD : (0 : ℚ) < (d : ℚ) := by exact_mod_cast hd
  have hs : (0 : ℚ) < (d : ℚ) / 400 := by positivity
  have h1 : (0 : ℚ) ≤ lo * ((d : ℚ) / 400) := mul_nonneg hlo (le_of_lt hs)
  have h2 : (0 : ℚ) ≤ (lo + len) * ((d : ℚ) / 400) := mul_nonneg (by linarith) (le_of_lt hs)
  have hBd : ⌊(lo + len) * ((d : ℚ) / 400)⌋ ≤ (d : ℤ) := by
    have h400 : (400 : ℚ) * ((d : ℚ) / 400) = (d : ℚ) := by field_simp
    have hq : (lo + len) * ((d : ℚ) / 400) ≤ (d : ℚ) := by nlinarith
    calc ⌊(lo + len) * ((d : ℚ) / 400)⌋ ≤ ⌊(d : ℚ)⌋ := Int.floor_le_floor hq
      _ = (d : ℤ) := Int.floor_natCast d
  have hsp : scaled_pair lo len d =
      (⌊lo * ((d : ℚ) / 400)⌋, ⌊(lo + len) * ((d : ℚ) / 400)⌋) := by
    rw [scaled_pair, pyInt_of_nonneg h1, pyInt_of_nonneg h2,
      max_eq_right (Int.floor_nonneg.mpr h1), min_eq_right hBd]
  rw [hsp]
  have hA1 : lo * ((d : ℚ) / 400) - 1 < (⌊lo * ((d : ℚ) / 400)⌋ : ℚ) :=
    Int.sub_one_lt_floor _
  have hA2 : ((⌊lo * ((d : ℚ) / 400)⌋ : ℤ) : ℚ) ≤ lo * ((d : ℚ) / 400) := Int.floor_le _
  have hB1 : (lo + len) * ((d : ℚ) / 400) - 1 < (⌊(lo + len) * ((d : ℚ) / 400)⌋ : ℚ) :=
    Int.sub_one_lt_floor _
  have hB2 : ((⌊(lo + len) * ((d : ℚ) / 400)⌋ : ℤ) : ℚ) ≤ (lo + len) * ((d : ℚ) / 400) :=
    Int.floor_le _
  constructor
  · exact rescale_close lo d _ hd hA1 (by linarith)
  · apply rescale_close len d _ hd
    · push_cast
      nlinarith
    · push_cast
      nlinarith

/-- C7: for any orientation and any rectangle with nonnegative size fully
inside the 400x400 display, projecting the 3D ROI produced by an update
with no prior ROI back into the same orientation recovers each rectangle
coordinate up to the integer rounding introduced by the index-space scale:
every component differs from the input by strictly less than one index unit
`400 / volume_dim` in display units. -/
theorem roi_round_trip (rect : RectF) (o : ViewOrientation) (size : Size3)
    (ai ci si : ℕ)
    (hx : 0 ≤ rect.x) (hy : 0 ≤ rect.y) (hw : 0 ≤ rect.w) (hh : 0 ≤ rect.h)
    (hxw : rect.x + rect.w ≤ 400) (hyh : rect.y + rect.h ≤ 400)
    (hdx : 1 ≤ size.x) (hdy : 1 ≤ size.y) (hdz : 1 ≤ size.z) :
    |(project_roi_rect
        (convert_roi_to_3d_preserving_dimensions none rect o size ai ci si) o size).x -
      rect.x| < 400 / ((viewDims o size).1 : ℚ) ∧
    |(project_roi_rect
        (convert_roi_to_3d_preserving_dimensions none rect o size ai ci si) o size).y -
      rect.y| < 400 / ((viewDims o size).2 : ℚ) ∧
    |(project_roi_rect
        (convert_roi_to_3d_preserving_dimensions none rect o size ai ci si) o size).w -
      rect.w| < 400 / ((viewDims o size).1 : ℚ) ∧
    |(project_roi_rect
        (convert_roi_to_3d_preserving_dimensions none rect o size ai ci si) o size).h -
      rect.h| < 400 / ((viewDims o size).2 : ℚ) := by
  rw [convert_none_eq]
  cases o
  · have hu := axis_round_trip rect.x rect.w size.x hdx hx hw hxw
    have hv := axis_round_trip rect.y rect.h size.y hdy hy hh hyh
    simp only [project_roi_rect, first_draw_roi_spec, viewDims]
    exact ⟨hu.1, hv.1, hu.2, hv.2⟩
  · have hu := axis_round_trip rect.x rect.w size.x hdx hx hw hxw
    have hv := axis_round_trip rect.y rect.h size.z hdz hy hh hyh
    simp only [project_roi_rect, first_draw_roi_spec, viewDims]
    exact ⟨hu.1, hv.1, hu.2, hv.2⟩
  · have hu := axis_round_trip rect.x rect.w size.y hdy hx hw hxw
    have hv := axis_round_trip rect.y rect.h size.z hdz hy hh hyh
    simp only [project_roi_rect, first_draw_roi_spec, viewDims]
    exact ⟨hu.1, hv.1, hu.2, hv.2⟩

theorem roi_round_trip_witness :
    (0 : ℚ) ≤ 50 ∧
    |(project_roi_rect
        (convert_roi_to_3d_preserving_dimensions none ⟨50, 50, 100, 100⟩ .axial
          ⟨512, 512, 300⟩ 10 10 10) .axial ⟨512, 512, 300⟩).x - (50 : ℚ)| <
      400 / ((viewDims .axial ⟨512, 512, 300⟩).1 : ℚ) := by
  have h := roi_round_trip ⟨50, 50, 100, 100⟩ .axial ⟨512, 512, 300⟩ 10 10 10
    (by norm_num) (by norm_num) (by norm_num) (by norm_num) (by norm_num) (by norm_num)
    (by norm_num) (by norm_num) (by norm_num)
  exact ⟨by norm_num, h.1⟩
